import Mathlib

/-!
Verification of fastapi-filter's geoalchemy contrib module
(src/fastapi_filter/contrib/geoalchemy/filter.py) against its
natural-language specification.

The module is shallowly embedded: Python values, errors, SQL expressions
and predicates become inductive types; each Python function of the module
becomes a Lean function over them.  Python calls that can raise become
Except-valued functions.  Floats are modelled as rationals (pydantic's
confloat with allow_inf_nan set to False excludes inf and nan, so the
finite-value behaviour is what matters for every claim).
-/

/-- Python exceptions that the module can raise, by class. -/
inductive PyError where
  | keyError (k : String)
  | valueError
  | typeError
  | indexError
  | nameError (s : String)
  | attributeError (s : String)
deriving DecidableEq, Repr

/-- Result of Python's type(column.type): the class of a column's SQL type.
geography and geometry model geoalchemy2.types.Geography / Geometry. -/
inductive ColType where
  | geography
  | geometry
  | integer
  | stringT
  | otherT (n : Nat)
deriving DecidableEq, Repr

/-- A SQLAlchemy __table__: its columns, as an association list from
column name to the class of the column's type. -/
structure PyTable where
  cols : List (String × ColType)
deriving DecidableEq, Repr

/-- A Python class as find_type sees it: an optional __table__ attribute
and the tuple of base classes (__bases__). -/
inductive PyClass where
  | mk (table : Option PyTable) (bases : List PyClass)

/-- A geometry value produced by geoalchemy2.functions.ST_MakeEnvelope.
The four coordinates are the positional arguments; sridArg is the optional
fifth argument.  The source's own comment records the signature:
ST_MakeEnvelope(float xmin, float ymin, float xmax, float ymax, integer srid=unknown). -/
inductive Geom where
  | stMakeEnvelope (xmin ymin xmax ymax : ℚ) (sridArg : Option Nat)
deriving DecidableEq, Repr

/-- The spatial reference system id carried by an envelope: the fifth
argument of ST_MakeEnvelope when supplied, otherwise unknown, which
PostGIS represents as SRID 0. -/
def Geom.srid : Geom → Nat
  | .stMakeEnvelope _ _ _ _ sridArg => sridArg.getD 0

/-- A Python value flowing through the filter: None, a string, a float,
a bool, a sequence of floats (a validated bounding box), or a geometry. -/
inductive PyVal where
  | noneV
  | str (s : String)
  | num (q : ℚ)
  | boolV (b : Bool)
  | numList (xs : List ℚ)
  | geom (g : Geom)
deriving DecidableEq, Repr

/-- A SQLAlchemy column expression: a model attribute
(getattr(model, name)) or a cast of an expression to Geometry(srid=...). -/
inductive SqlExpr where
  | column (model : String) (name : String)
  | castGeom (e : SqlExpr) (srid : Nat)
deriving DecidableEq, Repr

/-- A SQL predicate appended to a query: getattr(expr, op)(arg), an
expr.ilike(pattern) match, or an or_(...) disjunction. -/
inductive SqlPred where
  | app (target : SqlExpr) (op : String) (arg : PyVal)
  | ilike (target : SqlExpr) (pattern : String)
  | orP (ps : List SqlPred)

/-- A query object; query.filter(p) conjoins predicate p, returning a new
query (the model keeps the list of predicates applied so far). -/
structure Query where
  preds : List SqlPred

/-- query.filter(p): the returned query with predicate p appended. -/
def Query.filter (q : Query) (p : SqlPred) : Query :=
  ⟨q.preds ++ [p]⟩

/-! ### Python string operations

Python's str.split and str.endswith are embedded as structurally
recursive functions over the string's character list, so that every
theorem can be evaluated on concrete inputs by the kernel. -/

/-- Python's value.split(sep) for a one-character separator sep: pieces
between occurrences of sep; the piece count is the occurrence count plus
one, and splitting the empty string yields one empty piece. -/
def splitSep1 (sep : Char) : List Char → List (List Char)
  | [] => [[]]
  | c :: cs =>
    if c = sep then [] :: splitSep1 sep cs
    else
      match splitSep1 sep cs with
      | [] => [[c]]
      | p :: ps => (c :: p) :: ps

/-- Python's field_name.split(sep) for the two-character separator ab:
scans left to right, splitting at each non-overlapping occurrence. -/
def splitSep2 (a b : Char) : List Char → List (List Char)
  | [] => [[]]
  | [c] => [[c]]
  | c :: d :: rest =>
    if c = a ∧ d = b then [] :: splitSep2 a b rest
    else
      match splitSep2 a b (d :: rest) with
      | [] => [[c]]
      | p :: ps => (c :: p) :: ps

/-- field_name.split(sep) where sep is the double underscore, as a list of
strings.  A one-element result means sep does not occur in the name. -/
def pySplitName (name : String) : List String :=
  (splitSep2 '_' '_' name.data).map (fun l => ⟨l⟩)

/-- Python's s.endswith(suffix). -/
def pyEndsWith (s suffix : String) : Bool :=
  suffix.data.isSuffixOf s.data

/-- Python's value.split(sep) on a string, for a one-character sep. -/
def pySplitStr (sep : Char) (s : String) : List String :=
  (splitSep1 sep s.data).map (fun l => ⟨l⟩)

/-! ### Bounding box and envelope construction -/

/-- SRS_WGS_84 = 4326, the module's fixed geodetic reference system id. -/
def SRS_WGS_84 : Nat := 4326

/-- The BoundingBox type alias, translated bound for bound: a 4-tuple of
confloat components with, in order, ge=-90, ge=-180, le=90, le=180
(each bound one-sided, allow_inf_nan=False).  True iff pydantic accepts
the tuple. -/
def validBoundingBox (t : ℚ × ℚ × ℚ × ℚ) : Bool :=
  (-90 ≤ t.1) && (-180 ≤ t.2.1) && (t.2.2.1 ≤ 90) && (t.2.2.2 ≤ 180)

/-- The claim's acceptance predicate, following the spec's words: every
latitude component in [-90, 90] and every longitude component in
[-180, 180]; in the (xmin, ymin, xmax, ymax) order of the spec the x
components are longitudes and the y components latitudes. -/
def claimBoundingBox (t : ℚ × ℚ × ℚ × ℚ) : Bool :=
  (-180 ≤ t.1 && t.1 ≤ 180) && (-90 ≤ t.2.1 && t.2.1 ≤ 90) &&
    (-180 ≤ t.2.2.1 && t.2.2.1 ≤ 180) && (-90 ≤ t.2.2.2 && t.2.2.2 ≤ 90)

/-- Python's bbox[i] on a list: the element, or an IndexError. -/
def pyIndex (l : List ℚ) (i : Nat) : Except PyError ℚ :=
  match l.get? i with
  | some x => .ok x
  | none => .error .indexError

/-- bbox_to_geometry(bbox): functions.ST_MakeEnvelope(bbox[0], bbox[1],
bbox[2], bbox[3]) — four positional arguments and no srid argument; the
subscripts are evaluated left to right and the first out-of-range one
raises. -/
def bbox_to_geometry (bbox : List ℚ) : Except PyError Geom :=
  match pyIndex bbox 0, pyIndex bbox 1, pyIndex bbox 2, pyIndex bbox 3 with
  | .error e, _, _, _ => .error e
  | _, .error e, _, _ => .error e
  | _, _, .error e, _ => .error e
  | _, _, _, .error e => .error e
  | .ok x0, .ok x1, .ok x2, .ok x3 => .ok (Geom.stMakeEnvelope x0 x1 x2 x3 none)

/-! ### Operator transform table -/

/-- Modelled from the spec: the base operator transform table
_orm_operator_transformer is imported from
fastapi_filter.contrib.sqlalchemy.filter, which is not part of this
repository snapshot.  Per the spec it maps an operator-suffix string
(the examples given are in, not_in, gt, lte, isnull) to a function
producing the underlying predicate name and a possibly-transformed
value; an absent key means a lookup error at the caller.  Only the key
set matters to the claims below. -/
def sqla_orm_operator_transformer (op : String) :
    Option (PyVal → Except PyError (String × PyVal)) :=
  if op = "in" then some (fun v => .ok ("in_", v))
  else if op = "not_in" then some (fun v => .ok ("not_in", v))
  else if op = "gt" then some (fun v => .ok ("__gt__", v))
  else if op = "lte" then some (fun v => .ok ("__le__", v))
  else if op = "isnull" then some (fun v => .ok ("is_", v))
  else none

/-- The bbox transform's use of its value: bbox_to_geometry subscripts
the value, so a validated bounding box (a sequence of floats) is read
off; a non-subscriptable value is a TypeError. -/
def bboxSeq (v : PyVal) : Except PyError (List ℚ) :=
  match v with
  | .numList xs => .ok xs
  | _ => .error .typeError

/-- The module's merged table: the base table plus the entry
"bbox" mapping value to ("contained", bbox_to_geometry(value)). -/
def orm_operator_transformer (op : String) :
    Option (PyVal → Except PyError (String × PyVal)) :=
  if op = "bbox" then
    some (fun v => do
      let xs ← bboxSeq v
      let g ← bbox_to_geometry xs
      .ok ("contained", PyVal.geom g))
  else sqla_orm_operator_transformer op

/-! ### find_type: class-hierarchy column type lookup -/

/-- colname in class.__table__.c followed by the lookup of the column's
type class, for an optional __table__. -/
def tableLookup (t : Option PyTable) (colname : String) : Option ColType :=
  match t with
  | some tb => tb.cols.lookup colname
  | none => none

/-- find_type(class_, colname): return the type class of the column when
the class has a __table__ declaring colname; otherwise iterate over
__bases__ — the loop body returns unconditionally, so only the first
base is ever visited; with no bases, raise NameError(colname). -/
def find_type : PyClass → String → Except PyError ColType
  | .mk table bases, colname =>
    match tableLookup table colname with
    | some ty => .ok ty
    | none =>
      match bases with
      | [] => .error (.nameError colname)
      | b :: _ => find_type b colname

/-- The column type a class's own table declares for col, if any. -/
def ownType (c : PyClass) (col : String) : Option ColType :=
  match c with
  | .mk t _ => tableLookup t col

/-- The chain of classes find_type can ever visit starting from c: the
class itself, then the chain of its first base. -/
def firstChain : PyClass → List PyClass
  | .mk t [] => [.mk t []]
  | .mk t (b :: rest) => .mk t (b :: rest) :: firstChain b

/-- col is absent from every table along the first-base chain of c. -/
def chainLacks (c : PyClass) (col : String) : Bool :=
  (firstChain c).all (fun d => (ownType d col).isNone)

/-! ### The Filter class -/

/-- The Filter.Constants configuration a concrete filter carries: the
target model (named, with its instrumented attributes and its class for
find_type), the ordering field name, the search field name, and the
searchable model fields when the attribute is present (hasattr). -/
structure Constants where
  model : String
  attrs : List String
  modelClass : PyClass
  ordering_field_name : String
  search_field_name : String
  search_model_fields : Option (List String)

/-- getattr(Constants.model, name): the instrumented attribute, or an
AttributeError when the model does not define it. -/
def pygetattr (c : Constants) (name : String) : Except PyError SqlExpr :=
  if c.attrs.contains name then .ok (SqlExpr.column c.model name)
  else .error (.attributeError name)

/-- Lines 103-107 of Filter.filter: when the double underscore occurs in
the field name, destructure the split into (field_name, operator) — a
split into three or more parts raises ValueError — and replace
(operator, value) through the transform table, a missing key raising
KeyError; otherwise the operator defaults to equality. -/
def resolveOp (field_name : String) (value : PyVal) :
    Except PyError (String × String × PyVal) :=
  match pySplitName field_name with
  | [name] => .ok (name, "__eq__", value)
  | [base, op] =>
    match orm_operator_transformer op with
    | some f =>
      match f value with
      | .ok (op2, v2) => .ok (base, op2, v2)
      | .error e => .error e
    | none => .error (.keyError op)
  | _ => .error .valueError

/-- The loop body of Filter.filter for one non-nested declared field:
resolve the operator and value; on the search field (when
search_model_fields is configured) conjoin the or_ of ilike matches over
the searchable fields; otherwise resolve the model attribute and its
column type and, for a Geography column, conjoin the predicate against
the attribute cast to Geometry(srid=SRS_WGS_84).  In the remaining
branch the source reads query.filter(getattr(model_field), operator)(value):
getattr is invoked with a single argument, which raises TypeError before
any predicate is built, and the query is never reassigned. -/
def filterField (c : Constants) (q : Query) (field_name : String)
    (value : PyVal) : Except PyError Query :=
  match resolveOp field_name value with
  | .error e => .error e
  | .ok (fname, operator, v) =>
    if (fname == c.search_field_name) && c.search_model_fields.isSome then
      match v with
      | .str s =>
        .ok (q.filter (SqlPred.orP ((c.search_model_fields.getD []).map
          (fun f => SqlPred.ilike (SqlExpr.column c.model f) ("%" ++ s ++ "%")))))
      | _ => .error .typeError
    else
      match pygetattr c fname with
      | .error e => .error e
      | .ok mf =>
        match find_type c.modelClass fname with
        | .error e => .error e
        | .ok t =>
          if t = ColType.geography then
            .ok (q.filter (SqlPred.app (SqlExpr.castGeom mf SRS_WGS_84) operator v))
          else
            .error PyError.typeError

/-- One entry of self.filtering_fields: a plain value, or a nested filter
instance (its own Constants and fields), detected by isinstance. -/
inductive FieldEntry where
  | plain (v : PyVal)
  | nested (c : Constants) (fields : List (String × FieldEntry))

/-- Filter.filter: fold the per-field body over the declared filtering
fields in order, recursing into nested filter instances; the list of
(field name, value) pairs is supplied by the base class's
filtering_fields property, which is outside this module. -/
def applyFilter : Constants → List (String × FieldEntry) → Query →
    Except PyError Query
  | _, [], q => .ok q
  | c, (name, .plain v) :: rest, q =>
    match filterField c q name v with
    | .ok q2 => applyFilter c rest q2
    | .error e => .error e
  | c, (_, .nested c2 fs) :: rest, q =>
    match applyFilter c2 fs q with
    | .ok q2 => applyFilter c rest q2
    | .error e => .error e

/-! ### The split_str pre-validator -/

/-- The shape of a declared field, as pydantic reports it: SHAPE_TUPLE
for fixed-arity tuple fields, or any other shape. -/
inductive Shape where
  | tuple
  | listS
  | singleton
deriving DecidableEq, Repr

/-- What split_str returns: the value unchanged, the eager list
comprehension of coerced pieces, or the lazily-produced generator of
coerced pieces (for tuple-shaped fields). -/
inductive SplitOut where
  | unchanged (v : PyVal)
  | eager (xs : List PyVal)
  | lazy (xs : List PyVal)
deriving DecidableEq, Repr

/-- The split_str pre-validator: when the field is the ordering field or
its name ends in one of the three sequence suffixes, and the value is a
string, split the value on commas and coerce each piece with the field's
declared element type (field.type_), lazily for tuple-shaped fields;
every other value passes through unchanged. -/
def split_str (ordering_field_name field_name : String) (shape : Shape)
    (type_ : String → PyVal) (value : PyVal) : SplitOut :=
  match value with
  | .str s =>
    if (field_name == ordering_field_name)
        || pyEndsWith field_name "__in"
        || pyEndsWith field_name "__not_in"
        || pyEndsWith field_name "__bbox" then
      if shape = Shape.tuple then .lazy ((pySplitStr ',' s).map type_)
      else .eager ((pySplitStr ',' s).map type_)
    else .unchanged value
  | v => .unchanged v

/-! ### Helper lemmas -/

theorem splitSep1_length (sep : Char) (l : List Char) :
    (splitSep1 sep l).length = l.count sep + 1 := by
  induction l with
  | nil => simp [splitSep1]
  | cons c cs ih =>
    by_cases h : c = sep
    · subst h
      simp [splitSep1, ih, List.count_cons]
    · cases hr : splitSep1 sep cs with
      | nil => rw [hr] at ih; simp at ih
      | cons p ps =>
        rw [hr] at ih
        simp only [splitSep1, if_neg h, hr]
        simp only [List.length_cons] at ih ⊢
        rw [List.count_cons]
        simp [ih, h]

theorem applyFilter_append (c : Constants) (l1 l2 : List (String × FieldEntry))
    (q : Query) :
    applyFilter c (l1 ++ l2) q =
      match applyFilter c l1 q with
      | .ok q2 => applyFilter c l2 q2
      | .error e => .error e := by
  induction l1 generalizing q with
  | nil => simp [applyFilter]
  | cons hd tl ih =>
    rcases hd with ⟨name, entry⟩
    cases entry with
    | plain v =>
      simp only [List.cons_append, applyFilter]
      cases filterField c q name v with
      | ok q2 => simp [ih]
      | error e => simp
    | nested c2 fs =>
      simp only [List.cons_append, applyFilter]
      cases applyFilter c2 fs q with
      | ok q2 => simp [ih]
      | error e => simp

/-- Nesting depth of a column expression: a cast is never equal to its
own operand. -/
def SqlExpr.depth : SqlExpr → Nat
  | .column _ _ => 0
  | .castGeom e _ => e.depth + 1

theorem castGeom_ne (e : SqlExpr) (n : Nat) : SqlExpr.castGeom e n ≠ e := by
  intro h
  have h2 := congrArg SqlExpr.depth h
  simp [SqlExpr.depth] at h2

theorem chain_lacks_find_type_error : ∀ (c : PyClass) (col : String),
    chainLacks c col = true → find_type c col = .error (.nameError col)
  | .mk t [], col, h => by
    have h1 : tableLookup t col = none := by
      simpa [chainLacks, firstChain, ownType] using h
    simp [find_type, h1]
  | .mk t (b :: rest), col, h => by
    have hparts : (ownType (.mk t (b :: rest)) col).isNone = true
        ∧ chainLacks b col = true := by
      simpa [chainLacks, firstChain, List.all_cons] using h
    have h1 : tableLookup t col = none :=
      Option.isNone_iff_eq_none.mp (by simpa [ownType] using hparts.1)
    have hb := chain_lacks_find_type_error b col hparts.2
    simp [find_type, h1, hb]

/-! ### Concrete fixtures used by witnesses and counterexamples -/

/-- A model with one integer column named count. -/
def countModelClass : PyClass := .mk (some ⟨[("count", ColType.integer)]⟩) []

/-- Constants of a filter over that model; no search fields configured. -/
def cCount : Constants :=
  ⟨"MyModel", ["count"], countModelClass, "order_by", "search", none⟩

/-- A model with one Geography column named geom. -/
def geoModelClass : PyClass := .mk (some ⟨[("geom", ColType.geography)]⟩) []

/-- Constants of a filter over the geography model. -/
def cGeo : Constants :=
  ⟨"Track", ["geom"], geoModelClass, "order_by", "search", none⟩

/-- Constants of a filter with two configured searchable fields. -/
def cSearch : Constants :=
  ⟨"MyModel", [], .mk none [], "order_by", "search", some ["name", "description"]⟩

/-! ### C1 -/

/-- C1: the claim says every envelope produced by bbox_to_geometry is
tagged with EPSG:4326.  The code calls ST_MakeEnvelope with only the four
coordinates and no srid argument, so every envelope it produces carries
the unknown reference system (SRID 0), never 4326: the module's own
comment and the Geometry(srid=SRS_WGS_84) cast in Filter.filter show
4326 was the intent, so this is a defect in the code. -/
theorem bbox_envelope_srid_unknown (bbox : List ℚ) (g : Geom)
    (h : bbox_to_geometry bbox = .ok g) :
    Geom.srid g = 0 ∧ Geom.srid g ≠ SRS_WGS_84 := by
  rcases bbox with _ | ⟨a, _ | ⟨b, _ | ⟨c, _ | ⟨d, rest⟩⟩⟩⟩ <;>
    simp [bbox_to_geometry, pyIndex] at h
  subst h
  exact ⟨rfl, by simp [Geom.srid, SRS_WGS_84]⟩

/-- Witness for C1 at the failing input [10, 20, 30, 40]. -/
theorem bbox_envelope_srid_unknown_witness :
    Geom.srid (Geom.stMakeEnvelope 10 20 30 40 none) = 0 ∧
      Geom.srid (Geom.stMakeEnvelope 10 20 30 40 none) ≠ SRS_WGS_84 :=
  bbox_envelope_srid_unknown [10, 20, 30, 40] _ rfl

/-! ### C2 -/

/-- C2 counterexample: a field that reaches the non-geography, non-search
branch does not complete without error — on the integer column count the
call raises TypeError (getattr is invoked with a single argument), so the
branch never returns the query unchanged. -/
theorem non_geography_branch_raises :
    filterField cCount ⟨[]⟩ "count" (PyVal.num 3) =
      .error PyError.typeError := rfl

/-- C2 amended: for every field that reaches the non-geography,
non-search branch of Filter.filter, the call raises TypeError — getattr
is invoked with a single argument on line 122 — before any predicate is
built; the accumulating query is never reassigned and no predicate is
applied. -/
theorem filter_non_geography_branch_type_error
    (c : Constants) (q : Query) (field_name : String) (value : PyVal)
    (fname op : String) (v : PyVal) (mf : SqlExpr) (t : ColType)
    (hres : resolveOp field_name value = .ok (fname, op, v))
    (hsearch : ((fname == c.search_field_name) && c.search_model_fields.isSome) = false)
    (hattr : pygetattr c fname = .ok mf)
    (hty : find_type c.modelClass fname = .ok t)
    (hng : t ≠ ColType.geography) :
    filterField c q field_name value = .error PyError.typeError := by
  simp [filterField, hres, hsearch, hattr, hty, hng]

/-- Witness for the amended C2 on the concrete count field. -/
theorem filter_non_geography_branch_type_error_witness :
    filterField cCount ⟨[]⟩ "count" (PyVal.num 3) =
      .error PyError.typeError :=
  filter_non_geography_branch_type_error cCount ⟨[]⟩ "count" (PyVal.num 3)
    "count" "__eq__" (PyVal.num 3) (SqlExpr.column "MyModel" "count")
    ColType.integer rfl rfl rfl rfl (by decide)

/-! ### C3 -/

/-- C3 counterexample: the tuple (1000, 0, 0, 0) has a component outside
both the latitude range [-90, 90] and the longitude range [-180, 180],
yet BoundingBox validation accepts it, because each confloat bound is
one-sided. -/
theorem boundingBox_accepts_out_of_range :
    validBoundingBox (1000, 0, 0, 0) = true ∧
      claimBoundingBox (1000, 0, 0, 0) = false := by
  constructor <;> rfl

/-- C3 amended: BoundingBox accepts exactly those 4-tuples whose first
component is at least -90, second at least -180, third at most 90 and
fourth at most 180 — each bound is one-sided, so components arbitrarily
far beyond the opposite side are accepted. -/
theorem validBoundingBox_iff (t : ℚ × ℚ × ℚ × ℚ) :
    validBoundingBox t = true ↔
      (-90 ≤ t.1 ∧ -180 ≤ t.2.1 ∧ t.2.2.1 ≤ 90 ∧ t.2.2.2 ≤ 180) := by
  simp [validBoundingBox, and_assoc]

/-- Witness for the amended C3 at a concrete in-range tuple. -/
theorem validBoundingBox_iff_witness :
    validBoundingBox (10, 20, 30, 40) = true :=
  (validBoundingBox_iff (10, 20, 30, 40)).2 (by norm_num)

/-! ### C4 -/

/-- C4 counterexample: a five-element sequence does not fail — the four
subscripts succeed and the extra element is ignored, refuting the claim
that every sequence of length other than 4 fails with an indexing
error. -/
theorem bbox_to_geometry_length_five_succeeds :
    bbox_to_geometry [1, 2, 3, 4, 5] =
      .ok (Geom.stMakeEnvelope 1 2 3 4 none) := rfl

/-- C4 amended: bbox_to_geometry fails with an IndexError exactly on
sequences shorter than 4; on any sequence of length at least 4 it
succeeds, reading only the first four elements. -/
theorem bbox_to_geometry_arity (l : List ℚ) :
    (l.length < 4 → bbox_to_geometry l = .error PyError.indexError) ∧
      (4 ≤ l.length → ∃ g, bbox_to_geometry l = .ok g) := by
  rcases l with _ | ⟨a, _ | ⟨b, _ | ⟨c, _ | ⟨d, rest⟩⟩⟩⟩
  · exact ⟨fun _ => rfl, fun h => by simp at h⟩
  · exact ⟨fun _ => rfl, fun h => by simp at h⟩
  · exact ⟨fun _ => rfl, fun h => by simp at h⟩
  · exact ⟨fun _ => rfl, fun h => by simp at h⟩
  · refine ⟨fun h => ?_, fun _ => ⟨_, rfl⟩⟩
    exact absurd h (by simp)

/-- Witness for the amended C4: a length-2 input fails with IndexError
and a length-4 input succeeds. -/
theorem bbox_to_geometry_arity_witness :
    bbox_to_geometry [1, 2] = .error PyError.indexError ∧
      ∃ g, bbox_to_geometry [10, 20, 30, 40] = .ok g :=
  ⟨(bbox_to_geometry_arity [1, 2]).1 (by decide),
    (bbox_to_geometry_arity [10, 20, 30, 40]).2 (by decide)⟩

/-! ### C5 -/

/-- C5: for every field of the form base__suffix whose suffix is not a
key of the operator transform table, applying the filter fails with a
lookup error (KeyError on the suffix), whatever fields were applied
successfully before it. -/
theorem filter_unknown_operator_key_error
    (c : Constants) (q q2 : Query) (pre post : List (String × FieldEntry))
    (field_name base suffix : String) (v : PyVal)
    (hpre : applyFilter c pre q = .ok q2)
    (hsplit : pySplitName field_name = [base, suffix])
    (hmiss : orm_operator_transformer suffix = none) :
    applyFilter c (pre ++ (field_name, FieldEntry.plain v) :: post) q =
      .error (PyError.keyError suffix) := by
  rw [applyFilter_append, hpre]
  simp [applyFilter, filterField, resolveOp, hsplit, hmiss]

/-- Witness for C5 on the field field__bogus. -/
theorem filter_unknown_operator_key_error_witness :
    applyFilter cCount [("field__bogus", FieldEntry.plain (PyVal.num 1))] ⟨[]⟩ =
      .error (PyError.keyError "bogus") :=
  filter_unknown_operator_key_error cCount ⟨[]⟩ ⟨[]⟩ [] []
    "field__bogus" "field" "bogus" (PyVal.num 1) (by simp [applyFilter]) rfl rfl

/-! ### C6 -/

/-- C6: for a declared field named like the ordering field or ending in
one of the three sequence suffixes, a string value is split on commas
into a sequence — lazy for tuple-shaped fields, eager otherwise — whose
elements are the pieces coerced by the field's declared element type and
whose length is the comma count plus one; every other value passes
through unchanged. -/
theorem split_str_spec (ord name : String) (shape : Shape)
    (type_ : String → PyVal) (value : PyVal) :
    (∀ s, value = PyVal.str s →
      (name = ord ∨ pyEndsWith name "__in" = true ∨ pyEndsWith name "__not_in" = true
          ∨ pyEndsWith name "__bbox" = true) →
        split_str ord name shape type_ value =
          (if shape = Shape.tuple then SplitOut.lazy ((pySplitStr ',' s).map type_)
            else SplitOut.eager ((pySplitStr ',' s).map type_)) ∧
          ((pySplitStr ',' s).map type_).length = s.data.count ',' + 1) ∧
    (((∀ s, value ≠ PyVal.str s) ∨
        (name ≠ ord ∧ pyEndsWith name "__in" = false ∧ pyEndsWith name "__not_in" = false
          ∧ pyEndsWith name "__bbox" = false)) →
      split_str ord name shape type_ value = SplitOut.unchanged value) := by
  constructor
  · rintro s rfl hmatch
    have hc : ((name == ord)
        || pyEndsWith name "__in"
        || pyEndsWith name "__not_in"
        || pyEndsWith name "__bbox") = true := by
      rcases hmatch with h | h | h | h <;> simp [h]
    constructor
    · simp [split_str, hc]
    · simp [pySplitStr, splitSep1_length]
  · rintro (hnot | ⟨h1, h2, h3, h4⟩)
    · cases value with
      | str s => exact absurd rfl (hnot s)
      | noneV => rfl
      | num q => rfl
      | boolV b => rfl
      | numList xs => rfl
      | geom g => rfl
    · have hc : ((name == ord)
          || pyEndsWith name "__in"
          || pyEndsWith name "__not_in"
          || pyEndsWith name "__bbox") = false := by
        simp [h2, h3, h4, beq_eq_false_iff_ne, h1]
      cases value with
      | str s => simp [split_str, hc]
      | noneV => rfl
      | num q => rfl
      | boolV b => rfl
      | numList xs => rfl
      | geom g => rfl

/-- Witness for C6: an integer-list field named ids__in with the string
value 1,2,3 yields the eager three-element sequence of coerced pieces,
and a non-matching field passes its value through. -/
theorem split_str_spec_witness :
    split_str "order_by" "ids__in" Shape.listS PyVal.str (PyVal.str "1,2,3") =
        SplitOut.eager [PyVal.str "1", PyVal.str "2", PyVal.str "3"] ∧
      ((pySplitStr ',' "1,2,3").map PyVal.str).length = "1,2,3".data.count ',' + 1 ∧
      split_str "order_by" "count" Shape.singleton PyVal.str (PyVal.str "5") =
        SplitOut.unchanged (PyVal.str "5") := by
  have h := (split_str_spec "order_by" "ids__in" Shape.listS PyVal.str
      (PyVal.str "1,2,3")).1 "1,2,3" rfl (Or.inr (Or.inl rfl))
  have h2 := (split_str_spec "order_by" "count" Shape.singleton PyVal.str
      (PyVal.str "5")).2 (Or.inr (by refine ⟨?_, rfl, rfl, rfl⟩; decide))
  exact ⟨by rw [h.1]; rfl, h.2, h2⟩

/-! ### C7 -/

/-- C7: on the designated search field with configured search attributes
a and b and a string value x, Filter.filter conjoins the disjunction of
case-insensitive substring matches a ilike pattern or b ilike pattern,
where the pattern wraps x in percent signs. -/
theorem search_field_or_ilike
    (c : Constants) (q : Query) (a b x : String)
    (hf : c.search_model_fields = some [a, b])
    (hn : pySplitName c.search_field_name = [c.search_field_name]) :
    filterField c q c.search_field_name (PyVal.str x) =
      .ok (q.filter (SqlPred.orP
        [SqlPred.ilike (SqlExpr.column c.model a) ("%" ++ x ++ "%"),
          SqlPred.ilike (SqlExpr.column c.model b) ("%" ++ x ++ "%")])) := by
  simp [filterField, resolveOp, hn, hf]

/-- Witness for C7 on concrete search configuration. -/
theorem search_field_or_ilike_witness :
    filterField cSearch ⟨[]⟩ "search" (PyVal.str "x") =
      .ok (Query.filter ⟨[]⟩ (SqlPred.orP
        [SqlPred.ilike (SqlExpr.column "MyModel" "name") "%x%",
          SqlPred.ilike (SqlExpr.column "MyModel" "description") "%x%"])) :=
  search_field_or_ilike cSearch ⟨[]⟩ "name" "description" "x" rfl rfl

/-! ### C8 -/

/-- C8: for a field whose column type resolves to Geography, the
predicate is applied to the model attribute cast to
Geometry(srid=SRS_WGS_84), which is distinct from the raw geography
column expression. -/
theorem geography_field_cast_to_geometry
    (c : Constants) (q : Query) (field_name : String) (value : PyVal)
    (fname op : String) (v : PyVal) (mf : SqlExpr)
    (hres : resolveOp field_name value = .ok (fname, op, v))
    (hsearch : ((fname == c.search_field_name) && c.search_model_fields.isSome) = false)
    (hattr : pygetattr c fname = .ok mf)
    (hty : find_type c.modelClass fname = .ok ColType.geography) :
    filterField c q field_name value =
        .ok (q.filter (SqlPred.app (SqlExpr.castGeom mf SRS_WGS_84) op v)) ∧
      SqlExpr.castGeom mf SRS_WGS_84 ≠ mf := by
  refine ⟨?_, castGeom_ne mf SRS_WGS_84⟩
  simp [filterField, hres, hsearch, hattr, hty]

/-- Witness for C8: a bbox filter over a Geography column applies the
contained predicate to the cast column, not the raw one. -/
theorem geography_field_cast_to_geometry_witness :
    filterField cGeo ⟨[]⟩ "geom__bbox" (PyVal.numList [10, 20, 30, 40]) =
        .ok (Query.filter ⟨[]⟩ (SqlPred.app
          (SqlExpr.castGeom (SqlExpr.column "Track" "geom") SRS_WGS_84)
          "contained" (PyVal.geom (Geom.stMakeEnvelope 10 20 30 40 none)))) ∧
      SqlExpr.castGeom (SqlExpr.column "Track" "geom") SRS_WGS_84 ≠
        SqlExpr.column "Track" "geom" :=
  geography_field_cast_to_geometry cGeo ⟨[]⟩ "geom__bbox"
    (PyVal.numList [10, 20, 30, 40]) "geom" "contained"
    (PyVal.geom (Geom.stMakeEnvelope 10 20 30 40 none))
    (SqlExpr.column "Track" "geom") rfl rfl rfl rfl

/-! ### C9 -/

/-- C9: find_type only ever recurses into the first base class, so when
the column is absent from the class's own table and from the whole
first-base chain, it raises NameError even though a second base declares
the column. -/
theorem find_type_misses_later_bases
    (t : Option PyTable) (b1 b2 : PyClass) (rest : List PyClass)
    (col : String) (ty : ColType)
    (hlack : chainLacks (.mk t (b1 :: b2 :: rest)) col = true)
    (_hdecl : ownType b2 col = some ty) :
    find_type (.mk t (b1 :: b2 :: rest)) col = .error (.nameError col) :=
  chain_lacks_find_type_error _ _ hlack

/-- Witness for C9: a class whose second base declares geom still makes
find_type fail, because only the first base is searched. -/
theorem find_type_misses_later_bases_witness :
    find_type (.mk (some ⟨[("name", ColType.stringT)]⟩)
        [countModelClass, geoModelClass]) "geom" =
      .error (.nameError "geom") :=
  find_type_misses_later_bases (some ⟨[("name", ColType.stringT)]⟩)
    countModelClass geoModelClass [] "geom" ColType.geography rfl rfl

/-! ### C10 -/

/-- C10: a declared non-nested field whose name splits on the double
underscore into more than two parts makes Filter.filter raise ValueError
at the destructuring assignment, before any predicate is applied. -/
theorem filter_multi_separator_value_error
    (c : Constants) (q q2 : Query) (pre post : List (String × FieldEntry))
    (field_name : String) (v : PyVal)
    (hpre : applyFilter c pre q = .ok q2)
    (hlen : 2 < (pySplitName field_name).length) :
    applyFilter c (pre ++ (field_name, FieldEntry.plain v) :: post) q =
      .error PyError.valueError := by
  have hres : resolveOp field_name v = .error PyError.valueError := by
    rcases hsp : pySplitName field_name with _ | ⟨x, rest1⟩
    · rw [hsp] at hlen; simp at hlen
    · rcases rest1 with _ | ⟨y, rest2⟩
      · rw [hsp] at hlen; simp at hlen
      · rcases rest2 with _ | ⟨z, zs⟩
        · rw [hsp] at hlen; simp at hlen
        · simp [resolveOp, hsp]
  rw [applyFilter_append, hpre]
  simp [applyFilter, filterField, hres]

/-- Witness for C10 on the field a__b__in. -/
theorem filter_multi_separator_value_error_witness :
    applyFilter cCount [("a__b__in", FieldEntry.plain (PyVal.str "1"))] ⟨[]⟩ =
      .error PyError.valueError :=
  filter_multi_separator_value_error cCount ⟨[]⟩ ⟨[]⟩ [] [] "a__b__in"
    (PyVal.str "1") (by simp [applyFilter]) (by decide)
